import Mathlib

/-!
Shallow embedding of the USB device manager of usbmuxd (src/usb.c) and
verification of the specification's claims about it.

The embedding translates the functions of usb.c into pure Lean functions.
Stateful pieces (the tx transfer set, the devlist failure counter) are made
explicit state arguments and results; outcomes of libusb calls that the code
branches on (submission results, transfer statuses, fetched descriptors) are
inputs to the embedded functions, failure encoded exactly as the code tests it
(negative return values, non-completed statuses, null pointers as `Option`).
-/

namespace Usbmuxd

/-- Cached libusb device descriptor fields used by usb.c. -/
structure DeviceDescriptor where
  idVendor : Nat
  idProduct : Nat
  bNumConfigurations : Nat
  iSerialNumber : Nat
deriving DecidableEq

/-- First alternate setting of one interface of a configuration descriptor
(the fields guess_mode and set_valid_configuration read). -/
structure InterfaceDesc where
  bInterfaceClass : Nat
  bInterfaceSubClass : Nat
  bInterfaceProtocol : Nat
deriving DecidableEq

/-- A configuration descriptor as guess_mode walks it: the altsetting[0]
interface descriptors, in order. -/
structure ConfigDesc where
  interfaces : List InterfaceDesc
deriving DecidableEq

/-- Modelled from the spec: the multiplexer interface match triple comes from
usb.h, which is not part of the given sources; the spec describes it as the
vendor class + subclass + protocol constants the host agrees on for the
multiplexer protocol (vendor class 0xFF, upstream usbmuxd triple ff/fe/02). -/
def INTERFACE_CLASS : Nat := 0xff

/-- Modelled from the spec: multiplexer interface subclass constant from the
missing usb.h header. -/
def INTERFACE_SUBCLASS : Nat := 0xfe

/-- Modelled from the spec: multiplexer interface protocol constant from the
missing usb.h header. -/
def INTERFACE_PROTOCOL : Nat := 2

/-- A struct usb_device record as far as the claims read it. The libusb handle
is `Option Unit`: `none` is the NULL handle of a dead record. -/
structure UsbDevice where
  handle : Option Unit
  bus : Nat
  address : Nat
  serial : List Char
  ep_in : Nat
  ep_out : Nat
  wMaxPacketSize : Nat
  speed : Nat
  devdesc : DeviceDescriptor
deriving DecidableEq

/-- One bulk transfer as usb_send fills it: its endpoint and its length. -/
structure Transfer where
  endpoint : Nat
  length : Nat
deriving DecidableEq

/-- usb_send from usb.c, as a function of the device, the current tx transfer
set (the list of submitted-but-not-completed tx transfers, in submission
order), the payload length, and the two libusb_submit_transfer results the
host library would return (`res1` for the payload transfer, `res2` for the
zero-length-packet transfer; failure iff negative). Returns usb_send's return
value and the tx set afterwards. Mirrors the source line by line: on payload
submission failure the transfer is freed and the set untouched; on success the
payload transfer is added, then iff `length % wMaxPacketSize == 0` a ZLP
transfer on the same endpoint is submitted and, when that submission
succeeds, added as well. -/
def usb_send (dev : UsbDevice) (tx_xfers : List Transfer) (length : Nat)
    (res1 res2 : Int) : Int × List Transfer :=
  if res1 < 0 then
    (res1, tx_xfers)
  else
    let tx1 := tx_xfers ++ [{ endpoint := dev.ep_out, length := length }]
    if length % dev.wMaxPacketSize = 0 then
      if res2 < 0 then
        (res2, tx1)
      else
        (0, tx1 ++ [{ endpoint := dev.ep_out, length := 0 }])
    else
      (0, tx1)

/-- usb_get_serial from usb.c: NULL for a dead record, else the serial. -/
def usb_get_serial (dev : UsbDevice) : Option (List Char) :=
  match dev.handle with
  | none => none
  | some _ => some dev.serial

/-- usb_get_location from usb.c: 0 for a dead record, else
`(bus << 16) | address`. -/
def usb_get_location (dev : UsbDevice) : Nat :=
  match dev.handle with
  | none => 0
  | some _ => (dev.bus <<< 16) ||| dev.address

/-- usb_get_pid from usb.c: 0 for a dead record, else the descriptor's
idProduct. -/
def usb_get_pid (dev : UsbDevice) : Nat :=
  match dev.handle with
  | none => 0
  | some _ => dev.devdesc.idProduct

/-- usb_get_speed from usb.c: 0 for a dead record, else the cached speed. -/
def usb_get_speed (dev : UsbDevice) : Nat :=
  match dev.handle with
  | none => 0
  | some _ => dev.speed

/-- Flag has_valeria of guess_mode: set when some interface of configuration 5
has the vendor class, subclass 42, protocol 255. -/
def has_valeria (c : ConfigDesc) : Bool :=
  c.interfaces.any fun i =>
    i.bInterfaceClass == INTERFACE_CLASS && i.bInterfaceSubClass == 42 &&
      i.bInterfaceProtocol == 255

/-- Flag has_cdc_ncm of guess_mode: set when some interface of configuration 5
has class 2 (Communication) and subclass 0xd (CDC NCM). -/
def has_cdc_ncm (c : ConfigDesc) : Bool :=
  c.interfaces.any fun i =>
    i.bInterfaceClass == 2 && i.bInterfaceSubClass == 0xd

/-- Flag has_usbmux of guess_mode: set when some interface of configuration 5
matches the multiplexer triple exactly. -/
def has_usbmux (c : ConfigDesc) : Bool :=
  c.interfaces.any fun i =>
    i.bInterfaceClass == INTERFACE_CLASS && i.bInterfaceSubClass == INTERFACE_SUBCLASS &&
      i.bInterfaceProtocol == INTERFACE_PROTOCOL

/-- guess_mode from usb.c. `config5` is the outcome of
libusb_get_config_descriptor_by_value(dev, 5, ...): `none` when that call
fails. Return codes as documented in the source: 0 undetermined, 1 initial,
2 valeria, 3 cdc-ncm, 4 usbeth+cdc-ncm, 5 cdc-ncm direct. -/
def guess_mode (devdesc : DeviceDescriptor) (config5 : Option ConfigDesc) : Nat :=
  if devdesc.bNumConfigurations = 1 then
    5
  else if devdesc.bNumConfigurations ≤ 4 then
    1
  else if devdesc.bNumConfigurations = 6 then
    4
  else if devdesc.bNumConfigurations ≠ 5 then
    0
  else
    match config5 with
    | none => 0
    | some config =>
      if has_valeria config && has_usbmux config then 2
      else if has_cdc_ncm config && has_usbmux config then 3
      else 0

/-- Desired mode in get_mode_cb: the ENV_DEVICE_MODE environment variable
parsed by atoi when set, else 1; `env` is the parsed value. -/
def desired_mode (env : Option Int) : Int :=
  env.getD 1

/-- Whether get_mode_cb, after the GET_MODE transfer completed, submits the
SET_MODE (mode switch) control transfer: exactly when the desired mode is in
[1,5], the guess did not fail (guessed > 0), and the guess differs from the
desired mode. -/
def submits_set_mode (env : Option Int) (guessed : Nat) : Bool :=
  decide (1 ≤ desired_mode env) && decide (desired_mode env ≤ 5) &&
    decide (0 < guessed) && decide ((guessed : Int) ≠ desired_mode env)

/-- libusb transfer statuses usb.c distinguishes. -/
inductive TransferStatus
  | completed
  | error
  | timed_out
  | cancelled
  | stall
  | no_device
  | overflow
deriving DecidableEq

/-- switch_mode_cb from usb.c, reduced to its observable control decision:
given the SET_MODE transfer's status and the first byte of its response data,
`true` iff the callback invokes device_complete_initialization (initialization
proceeds to configuration selection). The source calls it when the status is
not COMPLETED, and when the status is COMPLETED but the response byte is
non-zero; on a COMPLETED transfer with response byte 0 it only frees the
context and buffer. -/
def switch_mode_cb_proceeds (status : TransferStatus) (data0 : Nat) : Bool :=
  if status ≠ TransferStatus.completed then
    true
  else if data0 ≠ 0 then
    true
  else
    false

/-- Outcome of libusb_get_device_list as usb_discover's branches see it:
a negative count, or a list yielding `valid_count` accepted devices. -/
inductive FetchOutcome
  | failure (err : Int)
  | success (valid_count : Nat)
deriving DecidableEq

/-- Observable outcome of one usb_discover call: the devlist_failures counter
afterwards, the return value, and whether the next poll was rescheduled
(next_dev_poll_time re-armed before returning). -/
structure DiscoverResult where
  failures : Nat
  ret : Int
  rescheduled : Bool
deriving DecidableEq

/-- usb_discover from usb.c, as a function of the devlist_failures counter
before the call and the device-list fetch outcome. On a failed fetch the
counter is incremented; if it then exceeds 5 the call is fatal: it returns the
negative libusb error without rescheduling the poll; otherwise it reschedules
the poll and returns 0. On a successful fetch the counter is reset to 0, the
scan runs, the poll is rescheduled and the number of accepted devices is
returned. -/
def usb_discover (devlist_failures : Nat) : FetchOutcome → DiscoverResult
  | .failure err =>
    let f := devlist_failures + 1
    if 5 < f then
      { failures := f, ret := err, rescheduled := false }
    else
      { failures := f, ret := 0, rescheduled := true }
  | .success valid_count =>
    { failures := 0, ret := (valid_count : Int), rescheduled := true }

/-- Serial post-processing at the end of get_serial_callback: when the decoded
serial has exactly 24 characters, memmove shifts the 16 characters at
positions 8..23 to positions 9..24 and position 8 becomes a hyphen; any other
length is stored unchanged. -/
def store_serial (s : List Char) : List Char :=
  if s.length = 24 then
    s.take 8 ++ '-' :: (s.drop 8).take 16
  else
    s

/-- Byte access `data[i]` on the control-transfer data buffer; the buffer is
zero-filled beyond the device's answer, so out-of-range reads give 0. -/
def dataAt (data : List Nat) (i : Nat) : Nat :=
  data.getD i 0

/-- The de-unicode loop of get_serial_callback. `bLen` is `data[0]` (the
string descriptor's bLength), `si` the source index (starting at 2, skipping
the 2-byte descriptor header, stepping by 2), `di` the count of characters
already emitted, bounded by sizeof(serial)-1 = 255. A unit whose low byte has
the high bit set or whose high byte is non-zero yields a question mark; a unit
with both bytes zero stops the loop; otherwise the low byte is emitted. -/
def de_unicode_go (data : List Nat) (bLen si di : Nat) : List Char :=
  if h : si < bLen ∧ di < 255 then
    if dataAt data si &&& 0x80 ≠ 0 ∨ dataAt data (si + 1) ≠ 0 then
      '?' :: de_unicode_go data bLen (si + 2) (di + 1)
    else if dataAt data si = 0 then
      []
    else
      Char.ofNat (dataAt data si) :: de_unicode_go data bLen (si + 2) (di + 1)
  else
    []
termination_by bLen - si
decreasing_by all_goals omega

/-- Serial-string decoding of get_serial_callback applied to the raw
descriptor bytes. -/
def de_unicode (data : List Nat) : List Char :=
  de_unicode_go data (dataAt data 0) 2 0

/-- The 2-byte units of a string descriptor, read from index `si` upward in
steps of 2 while `si` is below the descriptor's bLength. -/
def units_from (data : List Nat) (bLen si : Nat) : List (Nat × Nat) :=
  if si < bLen then
    (dataAt data si, dataAt data (si + 1)) :: units_from data bLen (si + 2)
  else
    []
termination_by bLen - si
decreasing_by omega

/-- All 2-byte units of the descriptor after the 2-byte header. -/
def serial_units (data : List Nat) : List (Nat × Nat) :=
  units_from data (dataAt data 0) 2

/-- A NUL unit: both bytes zero. -/
def unit_is_nul (u : Nat × Nat) : Bool :=
  u.1 == 0 && u.2 == 0

/-- Character a single non-NUL unit decodes to: its low byte when the high
byte is zero and the high bit of the low byte is clear, else a question
mark. -/
def unit_char (u : Nat × Nat) : Char :=
  if u.1 &&& 0x80 ≠ 0 ∨ u.2 ≠ 0 then '?' else Char.ofNat u.1

/-- Specification-side description of the decoder: take the units before the
first NUL unit, decode each in place, and truncate to 255 characters. -/
def de_unicode_spec (data : List Nat) : List Char :=
  ((((serial_units data).takeWhile fun u => !(unit_is_nul u)).map unit_char).take 255)

/-- The guessed modes, as the spec names them. -/
inductive Mode
  | undetermined
  | initial
  | valeria
  | cdc_ncm
  | usbeth_cdc_ncm
  | cdc_ncm_direct
deriving DecidableEq

/-- Numeric code of a mode, as documented on guess_mode in the source. -/
def Mode.code : Mode → Nat
  | .undetermined => 0
  | .initial => 1
  | .valeria => 2
  | .cdc_ncm => 3
  | .usbeth_cdc_ncm => 4
  | .cdc_ncm_direct => 5

/-- Inspection of configuration 5 as both the claim and the source describe
it: valeria when it has both a multiplexer interface and a
class=vendor/subclass=42/protocol=255 interface; cdc-ncm when it has a
multiplexer interface and a class=2/subclass=0xd interface; else
undetermined, also when configuration 5 is unreadable. -/
def inspect_config5 : Option ConfigDesc → Mode
  | none => .undetermined
  | some c =>
    if has_valeria c && has_usbmux c then .valeria
    else if has_cdc_ncm c && has_usbmux c then .cdc_ncm
    else .undetermined

/-- The claim's guess-mode table, as stated: 1 config → cdc-ncm-direct; 2–4
configs → initial; 6 configs → usbeth+cdc-ncm; 5 configs → inspect
configuration 5; any other configuration count → undetermined. -/
def guess_mode_claim_table (dd : DeviceDescriptor) (config5 : Option ConfigDesc) : Mode :=
  if dd.bNumConfigurations = 1 then .cdc_ncm_direct
  else if 2 ≤ dd.bNumConfigurations ∧ dd.bNumConfigurations ≤ 4 then .initial
  else if dd.bNumConfigurations = 6 then .usbeth_cdc_ncm
  else if dd.bNumConfigurations = 5 then inspect_config5 config5
  else .undetermined

/-- The amended guess-mode table: identical to the claim's except that a
configuration count of 0 is also classified initial, because the source tests
`bNumConfigurations <= 4` right after `== 1`. -/
def guess_mode_amended_table (dd : DeviceDescriptor) (config5 : Option ConfigDesc) : Mode :=
  if dd.bNumConfigurations = 1 then .cdc_ncm_direct
  else if dd.bNumConfigurations ≤ 4 then .initial
  else if dd.bNumConfigurations = 6 then .usbeth_cdc_ncm
  else if dd.bNumConfigurations = 5 then inspect_config5 config5
  else .undetermined

/-- A concrete live device record used to instantiate theorems: bus 1,
address 3, bulk-out endpoint 2, wMaxPacketSize 64. -/
def sample_dev : UsbDevice :=
  { handle := some (), bus := 1, address := 3, serial := ['a'], ep_in := 0x81,
    ep_out := 2, wMaxPacketSize := 64, speed := 480000000,
    devdesc := { idVendor := 0x5ac, idProduct := 0x12a8, bNumConfigurations := 4,
                 iSerialNumber := 3 } }

/-- A concrete dead record: NULL handle, arbitrary values elsewhere. -/
def dead_dev : UsbDevice :=
  { handle := none, bus := 7, address := 9, serial := ['x'], ep_in := 1,
    ep_out := 2, wMaxPacketSize := 512, speed := 12000000,
    devdesc := { idVendor := 1, idProduct := 2, bNumConfigurations := 3,
                 iSerialNumber := 4 } }

/-- A concrete device descriptor with a single configuration. -/
def dd_one_config : DeviceDescriptor :=
  { idVendor := 0x5ac, idProduct := 0x12a8, bNumConfigurations := 1, iSerialNumber := 3 }

/-- A concrete device descriptor reporting zero configurations. -/
def dd_zero_configs : DeviceDescriptor :=
  { idVendor := 0x5ac, idProduct := 0x12a8, bNumConfigurations := 0, iSerialNumber := 3 }

/-- Removing the element that sits right after a prefix removes exactly it. -/
theorem eraseIdx_append_cons {α : Type} (l1 l2 : List α) (a : α) :
    (l1 ++ a :: l2).eraseIdx l1.length = l1 ++ l2 := by
  induction l1 with
  | nil => rfl
  | cons x xs ih => simpa using ih

/-- Claim C1 counterexample: a write of length 0 on a device with
wMaxPacketSize 64 submits two transfers, the zero-length payload and then a
ZLP on the same endpoint, so for L = 0 it is not the case that exactly one
transfer is submitted with no ZLP following. -/
theorem usb_send_zero_length_zlp_counterexample :
    usb_send sample_dev [] 0 0 0 =
      (0, [{ endpoint := 2, length := 0 }, { endpoint := 2, length := 0 }]) := by
  decide

/-- Claim C1 (amended): when both submissions succeed, usb_send returns 0 and
appends a ZLP transfer on dev.ep_out right after the payload transfer exactly
when L % wMaxPacketSize == 0 — including L = 0; otherwise only the payload
transfer is appended. -/
theorem usb_send_zlp_iff (dev : UsbDevice) (tx : List Transfer) (L : Nat) :
    (usb_send dev tx L 0 0).1 = 0 ∧
    ((usb_send dev tx L 0 0).2 =
        tx ++ [{ endpoint := dev.ep_out, length := L },
               { endpoint := dev.ep_out, length := 0 }] ↔
      L % dev.wMaxPacketSize = 0) ∧
    ((usb_send dev tx L 0 0).2 = tx ++ [{ endpoint := dev.ep_out, length := L }] ↔
      ¬ L % dev.wMaxPacketSize = 0) := by
  unfold usb_send
  by_cases h : L % dev.wMaxPacketSize = 0 <;> simp [h]

/-- Claim C10: usb_send is atomic only for the payload transfer. If the
payload submission fails, the error is returned and the tx set is unchanged;
if the payload submission succeeds and the ZLP submission fails, the error is
returned while the payload transfer stays in the tx set. -/
theorem usb_send_partial_atomicity (dev : UsbDevice) (tx : List Transfer)
    (L : Nat) (res1 res2 : Int) :
    (res1 < 0 → usb_send dev tx L res1 res2 = (res1, tx)) ∧
    (0 ≤ res1 → res2 < 0 → L % dev.wMaxPacketSize = 0 →
      usb_send dev tx L res1 res2 =
        (res2, tx ++ [{ endpoint := dev.ep_out, length := L }])) := by
  constructor
  · intro h
    unfold usb_send
    simp [h]
  · intro h1 h2 h3
    unfold usb_send
    simp [h2, h3, not_lt.mpr h1]

/-- Witness for usb_send_partial_atomicity at concrete inputs. -/
theorem usb_send_partial_atomicity_witness :
    usb_send sample_dev [] 64 (-4) 0 = (-4, []) ∧
    usb_send sample_dev [] 64 0 (-5) = (-5, [{ endpoint := 2, length := 64 }]) := by
  refine ⟨(usb_send_partial_atomicity sample_dev [] 64 (-4) 0).1 (by decide), ?_⟩
  have h := (usb_send_partial_atomicity sample_dev [] 64 0 (-5)).2
    (by decide) (by decide) (by decide)
  simpa [sample_dev] using h

/-- Claim C8: for a live device, usb_get_location returns
(bus << 16) | address. -/
theorem usb_get_location_live (dev : UsbDevice) (h : dev.handle.isSome) :
    usb_get_location dev = (dev.bus <<< 16) ||| dev.address := by
  unfold usb_get_location
  match hh : dev.handle with
  | none => rw [hh] at h; simp at h
  | some u => rfl

/-- Witness for usb_get_location_live at a concrete live device. -/
theorem usb_get_location_live_witness :
    usb_get_location sample_dev = (1 <<< 16) ||| 3 :=
  usb_get_location_live sample_dev (by decide)

/-- Claim C9: every accessor is total on dead records: with a NULL handle,
usb_get_serial returns NULL and usb_get_location, usb_get_pid and
usb_get_speed each return 0, whatever the other fields hold. -/
theorem accessors_total_on_dead (dev : UsbDevice) (h : dev.handle = none) :
    usb_get_serial dev = none ∧ usb_get_location dev = 0 ∧
      usb_get_pid dev = 0 ∧ usb_get_speed dev = 0 := by
  unfold usb_get_serial usb_get_location usb_get_pid usb_get_speed
  rw [h]
  exact ⟨rfl, rfl, rfl, rfl⟩

/-- Witness for accessors_total_on_dead at a concrete dead record. -/
theorem accessors_total_on_dead_witness :
    usb_get_serial dead_dev = none ∧ usb_get_location dead_dev = 0 ∧
      usb_get_pid dead_dev = 0 ∧ usb_get_speed dead_dev = 0 :=
  accessors_total_on_dead dead_dev (by decide)

/-- Claim C2 counterexample: for a device with bNumConfigurations = 1 the
guess is 5 (cdc-ncm-direct), and under the default desired mode (environment
variable unset, so desired = 1) get_mode_cb does submit the SET_MODE control
transfer, because the guess 5 differs from the desired mode 1 — refuting the
claim that no mode switch is attempted. -/
theorem one_config_set_mode_counterexample :
    guess_mode dd_one_config none = 5 ∧
    submits_set_mode none (guess_mode dd_one_config none) = true := by
  decide

/-- Claim C2 (amended): a device with bNumConfigurations = 1 is classified
cdc-ncm-direct (code 5), and a SET_MODE control transfer is then submitted
exactly when the desired mode is in [1,5] and differs from 5; in particular
under the default desired mode (environment unset, desired = 1) the switch is
submitted. -/
theorem one_config_direct_mode_switch (dd : DeviceDescriptor)
    (c5 : Option ConfigDesc) (h : dd.bNumConfigurations = 1) :
    guess_mode dd c5 = 5 ∧
    submits_set_mode none (guess_mode dd c5) = true ∧
    (∀ env : Option Int,
      submits_set_mode env (guess_mode dd c5) =
        (decide (1 ≤ desired_mode env) && decide (desired_mode env ≤ 5) &&
          decide (desired_mode env ≠ 5))) := by
  have hg : guess_mode dd c5 = 5 := by
    unfold guess_mode
    rw [h]
    norm_num
  refine ⟨hg, ?_, ?_⟩
  · rw [hg]
    decide
  · intro env
    rw [hg]
    unfold submits_set_mode
    have : ((5 : Nat) : Int) ≠ desired_mode env ↔ desired_mode env ≠ 5 := ne_comm
    simp only [this]
    cases Int.decEq (desired_mode env) 5 <;> simp_all

/-- Witness for one_config_direct_mode_switch at a concrete descriptor. -/
theorem one_config_direct_mode_switch_witness :
    guess_mode dd_one_config none = 5 ∧
    submits_set_mode none (guess_mode dd_one_config none) = true :=
  ⟨(one_config_direct_mode_switch dd_one_config none rfl).1,
   (one_config_direct_mode_switch dd_one_config none rfl).2.1⟩

/-- Claim C3 counterexample: when the SET_MODE transfer completes with
response byte 0x00 (accepted), switch_mode_cb does not invoke
device_complete_initialization, so initialization does not proceed to
configuration selection — refuting the claim that it proceeds for every
response value. -/
theorem switch_mode_zero_response_counterexample :
    switch_mode_cb_proceeds TransferStatus.completed 0 = false := by
  decide

/-- Claim C3 (amended): after the SET_MODE transfer, switch_mode_cb proceeds
to configuration selection exactly when the transfer did not complete or the
response byte is non-zero (refusal tolerated); on a completed transfer with
response byte 0x00 it does not continue initialization. -/
theorem switch_mode_proceeds_iff (st : TransferStatus) (data0 : Nat) :
    switch_mode_cb_proceeds st data0 = true ↔
      (st ≠ TransferStatus.completed ∨ data0 ≠ 0) := by
  unfold switch_mode_cb_proceeds
  by_cases h1 : st = TransferStatus.completed <;> by_cases h2 : data0 = 0 <;>
    simp [h1, h2]

/-- Claim C4 counterexample: five consecutive device-list fetch failures
starting from a fresh counter each return 0 and reschedule the poll — the 5th
consecutive failure is not fatal, refuting the claim that the fatal condition
is declared after 5 consecutive failures. -/
theorem discover_five_failures_counterexample :
    usb_discover 0 (.failure (-3)) = { failures := 1, ret := 0, rescheduled := true } ∧
    usb_discover 1 (.failure (-3)) = { failures := 2, ret := 0, rescheduled := true } ∧
    usb_discover 2 (.failure (-3)) = { failures := 3, ret := 0, rescheduled := true } ∧
    usb_discover 3 (.failure (-3)) = { failures := 4, ret := 0, rescheduled := true } ∧
    usb_discover 4 (.failure (-3)) = { failures := 5, ret := 0, rescheduled := true } := by
  decide

/-- Claim C4 (amended): a failed fetch increments the consecutive-failure
counter, and the call is fatal — it returns the negative error instead of
rescheduling the poll — exactly when the counter was already at least 5, that
is, on the 6th consecutive failure; a successful fetch resets the counter to
zero, returns the accepted-device count and reschedules. -/
theorem discover_failure_accounting (s n : Nat) (err : Int) (h : err < 0) :
    ((usb_discover s (.failure err)).ret = err ∧
       (usb_discover s (.failure err)).rescheduled = false ↔ 5 ≤ s) ∧
    (usb_discover s (.failure err)).failures = s + 1 ∧
    (usb_discover s (.success n)).failures = 0 ∧
    (usb_discover s (.success n)).ret = (n : Int) ∧
    (usb_discover s (.success n)).rescheduled = true := by
  unfold usb_discover
  dsimp only
  by_cases hs : 5 < s + 1
  · rw [if_pos hs]
    exact ⟨⟨fun _ => by omega, fun _ => ⟨rfl, rfl⟩⟩, rfl, rfl, rfl, rfl⟩
  · rw [if_neg hs]
    refine ⟨⟨fun hc => ?_, fun hc => absurd hc (by omega)⟩, rfl, rfl, rfl, rfl⟩
    have h0 : (0 : Int) = err := hc.1
    omega

/-- Witness for discover_failure_accounting at concrete inputs. -/
theorem discover_failure_accounting_witness :
    ((usb_discover 5 (.failure (-7))).ret = -7 ∧
       (usb_discover 5 (.failure (-7))).rescheduled = false ↔ 5 ≤ 5) ∧
    (usb_discover 5 (.failure (-7))).failures = 5 + 1 ∧
    (usb_discover 5 (.success 2)).failures = 0 ∧
    (usb_discover 5 (.success 2)).ret = ((2 : Nat) : Int) ∧
    (usb_discover 5 (.success 2)).rescheduled = true :=
  discover_failure_accounting 5 2 (-7) (by decide)

/-- Claim C5 counterexample: a device descriptor reporting zero
configurations is classified initial (code 1) by guess_mode, while the
claim's table classifies every count outside 1..6 as undetermined (code 0). -/
theorem guess_mode_zero_configs_counterexample :
    guess_mode dd_zero_configs none ≠ (guess_mode_claim_table dd_zero_configs none).code ∧
    guess_mode dd_zero_configs none = Mode.initial.code ∧
    guess_mode_claim_table dd_zero_configs none = Mode.undetermined := by
  decide

/-- Claim C5 (amended): guess_mode agrees everywhere with the claim's table
amended in one point — a configuration count of 0 is also classified initial:
1 config → cdc-ncm-direct; 0 or 2–4 → initial; 6 → usbeth+cdc-ncm; 5 →
inspect configuration 5 (valeria with both multiplexer and vendor/42/255
interfaces, cdc-ncm with multiplexer and 2/0xd interfaces, else undetermined,
also when configuration 5 is unreadable); any other count → undetermined. -/
theorem guess_mode_table (dd : DeviceDescriptor) (c5 : Option ConfigDesc) :
    guess_mode dd c5 = (guess_mode_amended_table dd c5).code := by
  rcases c5 with _ | c <;>
    dsimp only [guess_mode, guess_mode_amended_table, inspect_config5] <;>
    split_ifs <;> first | rfl | omega

/-- Claim C6: a decoded serial of exactly 24 characters is stored as the
25-character string with a hyphen inserted between characters 8 and 9, and
deleting index 8 of the stored string recovers the pre-hyphen form; any other
length is stored unchanged. -/
theorem store_serial_hyphenation (s : List Char) :
    (s.length = 24 →
       store_serial s = s.take 8 ++ '-' :: s.drop 8 ∧
       (store_serial s).length = 25 ∧
       (store_serial s).eraseIdx 8 = s) ∧
    (s.length ≠ 24 → store_serial s = s) := by
  constructor
  · intro h
    have hdrop : (s.drop 8).take 16 = s.drop 8 :=
      List.take_of_length_le (by simp [h])
    have heq : store_serial s = s.take 8 ++ '-' :: s.drop 8 := by
      unfold store_serial
      rw [if_pos h, hdrop]
    have hlen8 : (s.take 8).length = 8 := by
      simp [h]
    refine ⟨heq, ?_, ?_⟩
    · simp [heq, h]
    · rw [heq]
      have he := eraseIdx_append_cons (s.take 8) (s.drop 8) '-'
      rw [hlen8] at he
      rw [he, List.take_append_drop]
  · intro h
    unfold store_serial
    rw [if_neg h]

/-- Witness for store_serial_hyphenation at the spec's 24-character serial. -/
theorem store_serial_hyphenation_witness :
    store_serial ("00008030000A1B2C3D4E5F60".toList) =
        ("00008030000A1B2C3D4E5F60".toList).take 8 ++ '-' ::
          ("00008030000A1B2C3D4E5F60".toList).drop 8 ∧
    (store_serial ("00008030000A1B2C3D4E5F60".toList)).length = 25 ∧
    (store_serial ("00008030000A1B2C3D4E5F60".toList)).eraseIdx 8 =
      "00008030000A1B2C3D4E5F60".toList :=
  (store_serial_hyphenation ("00008030000A1B2C3D4E5F60".toList)).1 (by decide)

/-- The de-unicode loop equals the declarative description for any start
indices: decode the units before the first NUL unit in place and truncate to
the room left in the 255-character output bound. -/
theorem de_unicode_go_eq (data : List Nat) (bLen : Nat) :
    ∀ fuel si di, bLen - si ≤ fuel →
      de_unicode_go data bLen si di =
        ((((units_from data bLen si).takeWhile fun u => !(unit_is_nul u)).map
          unit_char).take (255 - di)) := by
  intro fuel
  induction fuel with
  | zero =>
    intro si di hf
    have hsi : ¬ si < bLen := by omega
    rw [de_unicode_go, units_from]
    simp [hsi]
  | succ m ih =>
    intro si di hf
    rw [de_unicode_go, units_from]
    by_cases hsi : si < bLen
    · by_cases hdi : di < 255
      · rw [dif_pos ⟨hsi, hdi⟩, if_pos hsi]
        by_cases hna : dataAt data si &&& 0x80 ≠ 0 ∨ dataAt data (si + 1) ≠ 0
        · rw [if_pos hna]
          have hlow : ¬ unit_is_nul (dataAt data si, dataAt data (si + 1)) = true := by
            unfold unit_is_nul
            rcases hna with h1 | h1
            · intro hc
              simp only [Bool.and_eq_true, beq_iff_eq] at hc
              rw [hc.1] at h1
              exact h1 rfl
            · intro hc
              simp only [Bool.and_eq_true, beq_iff_eq] at hc
              exact h1 hc.2
          rw [List.takeWhile_cons_of_pos (by simpa using hlow)]
          have hchar : unit_char (dataAt data si, dataAt data (si + 1)) = '?' := by
            unfold unit_char
            rw [if_pos hna]
          rw [List.map_cons, hchar]
          have htake : 255 - di = (255 - (di + 1)) + 1 := by omega
          rw [htake, List.take_succ_cons]
          rw [ih (si + 2) (di + 1) (by omega)]
        · rw [if_neg hna]
          push_neg at hna
          obtain ⟨hna1, hna2⟩ := hna
          by_cases hz : dataAt data si = 0
          · rw [if_pos hz]
            have hnul : unit_is_nul (dataAt data si, dataAt data (si + 1)) = true := by
              unfold unit_is_nul
              simp [hz, hna2]
            rw [List.takeWhile_cons_of_neg (by simp [hnul])]
            simp
          · rw [if_neg hz]
            have hlow : ¬ unit_is_nul (dataAt data si, dataAt data (si + 1)) = true := by
              unfold unit_is_nul
              intro hc
              simp only [Bool.and_eq_true, beq_iff_eq] at hc
              exact hz hc.1
            rw [List.takeWhile_cons_of_pos (by simpa using hlow)]
            have hchar : unit_char (dataAt data si, dataAt data (si + 1)) =
                Char.ofNat (dataAt data si) := by
              unfold unit_char
              rw [if_neg (by push_neg; exact ⟨hna1, hna2⟩)]
            rw [List.map_cons, hchar]
            have htake : 255 - di = (255 - (di + 1)) + 1 := by omega
            rw [htake, List.take_succ_cons]
            rw [ih (si + 2) (di + 1) (by omega)]
      · have hcond : ¬ (si < bLen ∧ di < 255) := by tauto
        rw [dif_neg hcond]
        have h0 : 255 - di = 0 := by omega
        rw [h0, List.take_zero]
    · have hcond : ¬ (si < bLen ∧ di < 255) := by tauto
      rw [dif_neg hcond, if_neg hsi]
      simp

/-- Claim C7: serial-string decoding skips the 2-byte descriptor header and,
unit by unit until the first NUL unit, emits the low byte when the high byte
is zero and the high bit of the low byte is clear and a question mark for any
other non-NUL unit, positions preserved, with the output bounded by 255
characters — the loop equals the takeWhile/map/take-255 description. -/
theorem de_unicode_eq_spec (data : List Nat) :
    de_unicode data = de_unicode_spec data := by
  unfold de_unicode de_unicode_spec serial_units
  exact de_unicode_go_eq data (dataAt data 0) (dataAt data 0) 2 0 (by omega)

end Usbmuxd
